import Mathlib

/-!
A shallow embedding of the in-memory CRM service of this repository
(`src/unnamed/part_001`, `export const crmService = { ... }`) together with
proofs about its CRUD operations and the dashboard aggregation.

Modelling conventions:
* JavaScript records become Lean structures; object keys that can be absent
  are `Option` fields (a `none` field is an absent key).
* The generated `uuidv4()` value and `new Date().toISOString().split('T')[0]`
  are passed in as explicit `fresh` / `today` arguments.
* The module-level mutable arrays become explicit list-valued state: every
  operation returns its result together with the state after the call, so a
  thrown `Error` is `Except.error msg` paired with the unchanged state.
* JavaScript numeric division can produce `NaN` or `Infinity`; a division
  result is therefore `Option ℚ`, with `none` standing for any non-finite
  value (for the divisions in this service the numerator is `0` whenever the
  denominator is, so `none` always means `NaN`).
-/

set_option autoImplicit false

namespace CRM

/-- JavaScript division `a / b` on finite operands: `none` when the
denominator is zero (the JS result is then `NaN` or `±Infinity`). -/
def jsDiv (a b : ℚ) : Option ℚ := if b = 0 then none else some (a / b)

/-- JavaScript `Math.round` on a finite number: round half toward `+∞`. -/
def jsRound (q : ℚ) : ℤ := ⌊q + 1/2⌋

/-- JavaScript `x || d` on a number already known to be present. -/
def jsOrInt (x d : Int) : Int := if x = 0 then d else x

/-- Nested `address` object of a Customer record. -/
structure Address where
  street : Option String := none
  city : Option String := none
  state : Option String := none
  zipCode : Option String := none
  country : Option String := none
  deriving DecidableEq

/-- A Customer record as stored in the `customers` array.  The fields set
unconditionally by `createCustomer` (and present in every seed record) are
total; the purely caller-supplied business fields are optional keys. -/
structure Customer where
  id : String
  name : Option String := none
  email : Option String := none
  phone : Option String := none
  industry : Option String := none
  revenue : Option Int := none
  employees : Option Int := none
  website : Option String := none
  lastContact : Option String := none
  address : Option Address := none
  status : String
  healthScore : Int
  tier : String
  createdAt : String
  updatedAt : String
  deriving DecidableEq

/-- The partial-field object accepted by `createCustomer` / `updateCustomer`.
Every field is optional; a `some` field is a key present on the JS object. -/
structure CustomerData where
  id : Option String := none
  name : Option String := none
  email : Option String := none
  phone : Option String := none
  industry : Option String := none
  revenue : Option Int := none
  employees : Option Int := none
  website : Option String := none
  lastContact : Option String := none
  address : Option Address := none
  status : Option String := none
  healthScore : Option Int := none
  tier : Option String := none
  createdAt : Option String := none
  updatedAt : Option String := none
  deriving DecidableEq

/-- A Contact record as stored in the `contacts` array. -/
structure Contact where
  id : String
  customerId : Option String := none
  firstName : Option String := none
  lastName : Option String := none
  email : Option String := none
  phone : Option String := none
  title : Option String := none
  department : Option String := none
  avatar : Option String := none
  lastContact : Option String := none
  status : String
  createdAt : String
  updatedAt : String
  deriving DecidableEq

/-- The partial-field object accepted by `createContact` / `updateContact`. -/
structure ContactData where
  id : Option String := none
  customerId : Option String := none
  firstName : Option String := none
  lastName : Option String := none
  email : Option String := none
  phone : Option String := none
  title : Option String := none
  department : Option String := none
  avatar : Option String := none
  lastContact : Option String := none
  status : Option String := none
  createdAt : Option String := none
  updatedAt : Option String := none
  deriving DecidableEq

/-- A Deal record as stored in the `deals` array.  `value` is total: every
seed record and every creation site in the app supplies it, and the dashboard
sums `deal.value` without a guard (an absent `value` would poison every sum
with `NaN`, which the application never exercises). -/
structure Deal where
  id : String
  customerId : Option String := none
  contactId : Option String := none
  title : Option String := none
  value : Int
  stage : Option String := none
  probability : Option Int := none
  expectedCloseDate : Option String := none
  actualCloseDate : Option String := none
  description : Option String := none
  status : String
  createdAt : String
  updatedAt : String
  deriving DecidableEq

/-- The partial-field object accepted by `createDeal` / `updateDeal`. -/
structure DealData where
  id : Option String := none
  customerId : Option String := none
  contactId : Option String := none
  title : Option String := none
  value : Option Int := none
  stage : Option String := none
  probability : Option Int := none
  expectedCloseDate : Option String := none
  actualCloseDate : Option String := none
  description : Option String := none
  status : Option String := none
  createdAt : Option String := none
  updatedAt : Option String := none
  deriving DecidableEq

/-- An Activity record (the `activities` array is read-only in the service). -/
structure Activity where
  id : String
  type : String
  title : Option String := none
  description : Option String := none
  value : Option Int := none
  timestamp : String
  userId : Option String := none
  relatedId : Option String := none
  deriving DecidableEq

/-- The acknowledgement object `{ success: true }` returned by the deletes. -/
structure DeleteResult where
  success : Bool
  deriving DecidableEq

/-- The record built by `createCustomer`:
`{ id: uuidv4(), ...customerData, status: 'active', healthScore: 80,
   tier: 'startup', createdAt: today, updatedAt: today }`.
Spread order matters: a caller-supplied `id` key overrides the generated
uuid, while `status`/`healthScore`/`tier`/`createdAt`/`updatedAt` come after
the spread and override any caller-supplied values. -/
def newCustomer (fresh today : String) (d : CustomerData) : Customer where
  id := d.id.getD fresh
  name := d.name
  email := d.email
  phone := d.phone
  industry := d.industry
  revenue := d.revenue
  employees := d.employees
  website := d.website
  lastContact := d.lastContact
  address := d.address
  status := "active"
  healthScore := 80
  tier := "startup"
  createdAt := today
  updatedAt := today

/-- The record built by the assignment in `updateCustomer`:
`{ ...customers[index], ...customerData, updatedAt: today }` — a shallow
merge (the nested `address` object is wholesale replaced when supplied),
with `updatedAt` refreshed last. -/
def mergeCustomer (c : Customer) (d : CustomerData) (today : String) : Customer where
  id := d.id.getD c.id
  name := d.name.or c.name
  email := d.email.or c.email
  phone := d.phone.or c.phone
  industry := d.industry.or c.industry
  revenue := d.revenue.or c.revenue
  employees := d.employees.or c.employees
  website := d.website.or c.website
  lastContact := d.lastContact.or c.lastContact
  address := d.address.or c.address
  status := d.status.getD c.status
  healthScore := d.healthScore.getD c.healthScore
  tier := d.tier.getD c.tier
  createdAt := d.createdAt.getD c.createdAt
  updatedAt := today

/-- The record built by `createContact` (no `healthScore`/`tier` defaults). -/
def newContact (fresh today : String) (d : ContactData) : Contact where
  id := d.id.getD fresh
  customerId := d.customerId
  firstName := d.firstName
  lastName := d.lastName
  email := d.email
  phone := d.phone
  title := d.title
  department := d.department
  avatar := d.avatar
  lastContact := d.lastContact
  status := "active"
  createdAt := today
  updatedAt := today

/-- The record built by the assignment in `updateContact`. -/
def mergeContact (c : Contact) (d : ContactData) (today : String) : Contact where
  id := d.id.getD c.id
  customerId := d.customerId.or c.customerId
  firstName := d.firstName.or c.firstName
  lastName := d.lastName.or c.lastName
  email := d.email.or c.email
  phone := d.phone.or c.phone
  title := d.title.or c.title
  department := d.department.or c.department
  avatar := d.avatar.or c.avatar
  lastContact := d.lastContact.or c.lastContact
  status := d.status.getD c.status
  createdAt := d.createdAt.getD c.createdAt
  updatedAt := today

/-- The record built by `createDeal` (no `healthScore`/`tier` defaults). -/
def newDeal (fresh today : String) (d : DealData) : Deal where
  id := d.id.getD fresh
  customerId := d.customerId
  contactId := d.contactId
  title := d.title
  value := d.value.getD 0
  stage := d.stage
  probability := d.probability
  expectedCloseDate := d.expectedCloseDate
  actualCloseDate := d.actualCloseDate
  description := d.description
  status := "active"
  createdAt := today
  updatedAt := today

/-- The record built by the assignment in `updateDeal`:
`{ ...deals[index], ...dealData, updatedAt: today }`. -/
def mergeDeal (dl : Deal) (d : DealData) (today : String) : Deal where
  id := d.id.getD dl.id
  customerId := d.customerId.or dl.customerId
  contactId := d.contactId.or dl.contactId
  title := d.title.or dl.title
  value := d.value.getD dl.value
  stage := d.stage.or dl.stage
  probability := d.probability.or dl.probability
  expectedCloseDate := d.expectedCloseDate.or dl.expectedCloseDate
  actualCloseDate := d.actualCloseDate.or dl.actualCloseDate
  description := d.description.or dl.description
  status := d.status.getD dl.status
  createdAt := d.createdAt.getD dl.createdAt
  updatedAt := today

/-- Replace the first element satisfying `p` by its image under `f`,
returning the new element and the new list; `none` when no element matches.
This renders the `findIndex` / `array[index] = ...` pattern of the update
operations (`findIndex` returning `-1` is the `none` case). -/
def updateFirst {α : Type} (p : α → Bool) (f : α → α) : List α → Option (α × List α)
  | [] => none
  | x :: xs =>
    if p x then some (f x, f x :: xs)
    else (updateFirst p f xs).map (fun r => (r.1, x :: r.2))

/-- Remove the first element satisfying `p`; `none` when no element matches.
This renders the `findIndex` / `splice(index, 1)` pattern of the delete
operations. -/
def removeFirst {α : Type} (p : α → Bool) : List α → Option (List α)
  | [] => none
  | x :: xs => if p x then some xs else (removeFirst p xs).map (fun l => x :: l)

/-- `getCustomer(id)`: `customers.find(customer => customer.id === id)`. -/
def getCustomerL (id : String) (st : List Customer) : Option Customer :=
  st.find? (fun c => c.id == id)

/-- `createCustomer(customerData)`: build the new record, `push` it, return it. -/
def createCustomerL (fresh today : String) (d : CustomerData) (st : List Customer) :
    Customer × List Customer :=
  let n := newCustomer fresh today d
  (n, st ++ [n])

/-- `updateCustomer(id, customerData)`: replace the record at the first index
whose `id` matches, or throw `Error('Customer not found')` leaving the array
untouched. -/
def updateCustomerL (id : String) (d : CustomerData) (today : String)
    (st : List Customer) : Except String Customer × List Customer :=
  match updateFirst (fun c => c.id == id) (fun c => mergeCustomer c d today) st with
  | none => (Except.error "Customer not found", st)
  | some (r, st') => (Except.ok r, st')

/-- `deleteCustomer(id)`: `splice` out the record at the first matching index
and return `{ success: true }`, or throw `Error('Customer not found')`. -/
def deleteCustomerL (id : String) (st : List Customer) :
    Except String DeleteResult × List Customer :=
  match removeFirst (fun c => c.id == id) st with
  | none => (Except.error "Customer not found", st)
  | some st' => (Except.ok ⟨true⟩, st')

/-- `getContact(id)`. -/
def getContactL (id : String) (st : List Contact) : Option Contact :=
  st.find? (fun c => c.id == id)

/-- `createContact(contactData)`. -/
def createContactL (fresh today : String) (d : ContactData) (st : List Contact) :
    Contact × List Contact :=
  let n := newContact fresh today d
  (n, st ++ [n])

/-- `updateContact(id, contactData)`. -/
def updateContactL (id : String) (d : ContactData) (today : String)
    (st : List Contact) : Except String Contact × List Contact :=
  match updateFirst (fun c => c.id == id) (fun c => mergeContact c d today) st with
  | none => (Except.error "Contact not found", st)
  | some (r, st') => (Except.ok r, st')

/-- `deleteContact(id)`. -/
def deleteContactL (id : String) (st : List Contact) :
    Except String DeleteResult × List Contact :=
  match removeFirst (fun c => c.id == id) st with
  | none => (Except.error "Contact not found", st)
  | some st' => (Except.ok ⟨true⟩, st')

/-- `getDeal(id)`. -/
def getDealL (id : String) (st : List Deal) : Option Deal :=
  st.find? (fun dl => dl.id == id)

/-- `createDeal(dealData)`. -/
def createDealL (fresh today : String) (d : DealData) (st : List Deal) :
    Deal × List Deal :=
  let n := newDeal fresh today d
  (n, st ++ [n])

/-- `updateDeal(id, dealData)`. -/
def updateDealL (id : String) (d : DealData) (today : String)
    (st : List Deal) : Except String Deal × List Deal :=
  match updateFirst (fun dl => dl.id == id) (fun dl => mergeDeal dl d today) st with
  | none => (Except.error "Deal not found", st)
  | some (r, st') => (Except.ok r, st')

/-- `deleteDeal(id)`. -/
def deleteDealL (id : String) (st : List Deal) :
    Except String DeleteResult × List Deal :=
  match removeFirst (fun dl => dl.id == id) st with
  | none => (Except.error "Deal not found", st)
  | some st' => (Except.ok ⟨true⟩, st')

/-- The four module-level arrays `customers`, `contacts`, `deals`,
`activities` that make up the whole mutable state of the service module. -/
structure CRMState where
  customers : List Customer
  contacts : List Contact
  deals : List Deal
  activities : List Activity
  deriving DecidableEq

/-- One entry of `topCustomers`: `{ ...customer, dealValue }`, a customer
record extended with the summed value of its won deals. -/
structure TopEntry where
  customer : Customer
  dealValue : Int
  deriving DecidableEq

/-- One point of the hand-authored `monthlyRevenue` series. -/
structure MonthRevenue where
  month : String
  value : Int
  deriving DecidableEq

/-- The `pipeline` object: active deals bucketed by stage. -/
structure Pipeline where
  qualification : List Deal
  proposal : List Deal
  negotiation : List Deal
  deriving DecidableEq

/-- The summary object returned by `getDashboardStats`.  `avgHealthScore`
and `conversionRate` are `Option`-valued because the JS computation can
produce `NaN` (`none`). -/
structure DashboardStats where
  totalCustomers : Nat
  activeCustomers : Nat
  totalContacts : Nat
  totalDeals : Nat
  totalDealValue : Int
  activeDeals : Nat
  wonDeals : Nat
  lostDeals : Nat
  wonDealValue : Int
  totalRevenue : Int
  avgHealthScore : Option Int
  conversionRate : Option ℚ
  pipeline : Pipeline
  monthlyRevenue : List MonthRevenue
  topCustomers : List TopEntry
  recentActivities : List Activity
  deriving DecidableEq

/-- `getDashboardStats()`, translated clause by clause from the source.
`avgHealthScore` is `Math.round(sum / totalCustomers)` with no guard, so it
is `NaN` (`none`) on an empty customer list; `conversionRate` guards on
`totalDeals > 0` (not on `wonDeals + lostDeals`), so it is `NaN` (`none`)
when deals exist but none has status `won` or `lost`.  The `sort` comparator
`(a, b) => b.dealValue - a.dealValue` is rendered as a stable merge sort with
`le a b := b.dealValue ≤ a.dealValue` (JS `Array.prototype.sort` is stable). -/
def getDashboardStats (st : CRMState) : DashboardStats :=
  let customers := st.customers
  let contacts := st.contacts
  let deals := st.deals
  let activities := st.activities
  let totalCustomers := customers.length
  let activeCustomers := (customers.filter (fun c => c.status == "active")).length
  let totalContacts := contacts.length
  let totalDeals := deals.length
  let activeDeals := (deals.filter (fun dl => dl.status == "active")).length
  let wonDeals := (deals.filter (fun dl => dl.status == "won")).length
  let lostDeals := (deals.filter (fun dl => dl.status == "lost")).length
  let totalDealValue :=
    (deals.filter (fun dl => dl.status == "active")).foldl (fun s dl => s + dl.value) 0
  let wonDealValue :=
    (deals.filter (fun dl => dl.status == "won")).foldl (fun s dl => s + dl.value) 0
  let totalRevenue := customers.foldl (fun s c => s + c.revenue.getD 0) 0
  let avgHealthScoreRaw :=
    jsDiv (customers.foldl (fun s c => s + jsOrInt c.healthScore 0) 0 : ℤ) totalCustomers
  let pipeline : Pipeline :=
    { qualification :=
        deals.filter (fun dl => dl.stage == some "qualification" && dl.status == "active")
      proposal :=
        deals.filter (fun dl => dl.stage == some "proposal" && dl.status == "active")
      negotiation :=
        deals.filter (fun dl => dl.stage == some "negotiation" && dl.status == "active") }
  let monthlyRevenue : List MonthRevenue :=
    [⟨"Oct", 1850000⟩, ⟨"Nov", 2100000⟩, ⟨"Dec", 2450000⟩,
     ⟨"Jan", 2680000⟩, ⟨"Feb", 3185000⟩, ⟨"Mar", 3520000⟩]
  let topCustomers :=
    (((customers.map (fun c =>
        let customerDeals :=
          deals.filter (fun dl => dl.customerId == some c.id && dl.status == "won")
        let dealValue := customerDeals.foldl (fun s dl => s + dl.value) 0
        ({ customer := c, dealValue := dealValue } : TopEntry))).filter
      (fun c => decide (0 < c.dealValue))).mergeSort
      (fun a b => decide (b.dealValue ≤ a.dealValue))).take 5
  { totalCustomers := totalCustomers
    activeCustomers := activeCustomers
    totalContacts := totalContacts
    totalDeals := totalDeals
    totalDealValue := totalDealValue
    activeDeals := activeDeals
    wonDeals := wonDeals
    lostDeals := lostDeals
    wonDealValue := wonDealValue
    totalRevenue := totalRevenue
    avgHealthScore := avgHealthScoreRaw.map jsRound
    conversionRate :=
      if totalDeals > 0 then
        (jsDiv (wonDeals : ℚ) ((wonDeals : ℚ) + (lostDeals : ℚ))).map (fun q => q * 100)
      else some 0
    pipeline := pipeline
    monthlyRevenue := monthlyRevenue
    topCustomers := topCustomers
    recentActivities := activities.take 5 }

/-- `updateCustomer` seen as acting on the whole module state: it reads and
writes only the `customers` array. -/
def updateCustomerS (id : String) (d : CustomerData) (today : String)
    (st : CRMState) : Except String Customer × CRMState :=
  let r := updateCustomerL id d today st.customers
  (r.1, { st with customers := r.2 })

/-- `deleteCustomer` seen as acting on the whole module state. -/
def deleteCustomerS (id : String) (st : CRMState) :
    Except String DeleteResult × CRMState :=
  let r := deleteCustomerL id st.customers
  (r.1, { st with customers := r.2 })

/-- `updateContact` seen as acting on the whole module state. -/
def updateContactS (id : String) (d : ContactData) (today : String)
    (st : CRMState) : Except String Contact × CRMState :=
  let r := updateContactL id d today st.contacts
  (r.1, { st with contacts := r.2 })

/-- `deleteContact` seen as acting on the whole module state. -/
def deleteContactS (id : String) (st : CRMState) :
    Except String DeleteResult × CRMState :=
  let r := deleteContactL id st.contacts
  (r.1, { st with contacts := r.2 })

/-- `updateDeal` seen as acting on the whole module state. -/
def updateDealS (id : String) (d : DealData) (today : String)
    (st : CRMState) : Except String Deal × CRMState :=
  let r := updateDealL id d today st.deals
  (r.1, { st with deals := r.2 })

/-- `deleteDeal` seen as acting on the whole module state. -/
def deleteDealS (id : String) (st : CRMState) :
    Except String DeleteResult × CRMState :=
  let r := deleteDealL id st.deals
  (r.1, { st with deals := r.2 })

/-- Sum of the values of the won deals of the customer with id `cid` (the
quantity the dashboard calls `dealValue`). -/
def wonDealSum (deals : List Deal) (cid : String) : Int :=
  ((deals.filter (fun dl => dl.customerId == some cid && dl.status == "won")).map
    Deal.value).sum

/-! ### Helper lemmas -/

theorem jsOrInt_zero (x : Int) : jsOrInt x 0 = x := by
  unfold jsOrInt; split <;> omega

theorem foldl_add_eq_sum {α : Type} (g : α → Int) (l : List α) (i : Int) :
    l.foldl (fun s a => s + g a) i = i + (l.map g).sum := by
  induction l generalizing i with
  | nil => simp
  | cons x xs ih => simp [ih, add_assoc]

theorem updateFirst_eq_none_of_forall {α : Type} (p : α → Bool) (f : α → α)
    (l : List α) (h : ∀ x ∈ l, p x = false) : updateFirst p f l = none := by
  induction l with
  | nil => rfl
  | cons x xs ih =>
    have hx := h x (List.mem_cons_self x xs)
    simp [updateFirst, hx, ih (fun y hy => h y (List.mem_cons_of_mem x hy))]

theorem removeFirst_eq_none_of_forall {α : Type} (p : α → Bool)
    (l : List α) (h : ∀ x ∈ l, p x = false) : removeFirst p l = none := by
  induction l with
  | nil => rfl
  | cons x xs ih =>
    have hx := h x (List.mem_cons_self x xs)
    simp [removeFirst, hx, ih (fun y hy => h y (List.mem_cons_of_mem x hy))]

theorem updateFirst_map_proj {α β : Type} (p : α → Bool) (f : α → α) (g : α → β)
    (hf : ∀ x, g (f x) = g x) :
    ∀ (l : List α) (r : α × List α), updateFirst p f l = some r →
      r.2.map g = l.map g := by
  intro l
  induction l with
  | nil => intro r h; simp [updateFirst] at h
  | cons x xs ih =>
    intro r h
    by_cases hpx : p x = true
    · simp only [updateFirst, hpx, if_true] at h
      cases h
      simp [hf]
    · cases hu : updateFirst p f xs with
      | none => simp [updateFirst, hpx, hu] at h
      | some r' =>
        simp only [updateFirst, hpx, if_false, hu, Option.map_some'] at h
        cases h
        simp [ih r' hu]

theorem updateFirst_eq_map_of_unique {α : Type} (p : α → Bool) (f : α → α) :
    ∀ (l : List α) (x : α), l.find? p = some x →
      l.Pairwise (fun a b => p a = true → p b = false) →
      updateFirst p f l = some (f x, l.map (fun a => if p a then f a else a)) := by
  intro l
  induction l with
  | nil => intro x h; simp at h
  | cons y ys ih =>
    intro x hfind hpw
    by_cases hpy : p y = true
    · rw [List.find?_cons_of_pos ys hpy] at hfind
      cases hfind
      have hrest : ∀ b ∈ ys, p b = false := fun b hb =>
        (List.pairwise_cons.mp hpw).1 b hb hpy
      have hmap : ys.map (fun a => if p a then f a else a) = ys := by
        have hcongr : ys.map (fun a => if p a then f a else a) = ys.map id :=
          List.map_congr_left (fun a ha => by simp [hrest a ha])
        rw [hcongr, List.map_id]
      simp [updateFirst, hpy, hmap]
    · rw [List.find?_cons_of_neg ys hpy] at hfind
      have h' := ih x hfind (List.pairwise_cons.mp hpw).2
      simp [updateFirst, hpy, h']

theorem removeFirst_spec {α : Type} (p : α → Bool) :
    ∀ (l : List α), (∃ x ∈ l, p x = true) →
      ∃ l', removeFirst p l = some l' ∧ l'.length + 1 = l.length ∧
        (l.Pairwise (fun a b => p a = true → p b = false) → l'.find? p = none) := by
  intro l
  induction l with
  | nil => intro hx; simp at hx
  | cons x xs ih =>
    intro hx
    by_cases hpx : p x = true
    · refine ⟨xs, by simp [removeFirst, hpx], by simp, ?_⟩
      intro hpw
      exact List.find?_eq_none.mpr
        (fun y hy => by simp [(List.pairwise_cons.mp hpw).1 y hy hpx])
    · obtain ⟨y, hy, hpy⟩ := hx
      rcases List.mem_cons.mp hy with rfl | hy'
      · exact absurd hpy hpx
      · obtain ⟨l', h1, h2, h3⟩ := ih ⟨y, hy', hpy⟩
        refine ⟨x :: l', by simp [removeFirst, hpx, h1], by simp [h2], ?_⟩
        intro hpw
        have hfx := List.find?_cons_of_neg l' hpx
        rw [hfx, h3 (List.pairwise_cons.mp hpw).2]

theorem find?_append_last {α : Type} (p : α → Bool) (l : List α) (x : α)
    (hl : ∀ y ∈ l, p y = false) (hx : p x = true) :
    (l ++ [x]).find? p = some x := by
  rw [List.find?_append]
  have h0 : l.find? p = none := List.find?_eq_none.mpr (fun y hy => by simp [hl y hy])
  simp [h0, List.find?, hx]

theorem pairwise_key_of_nodup_map {α : Type} (g : α → String) (l : List α) (b : String)
    (h : (l.map g).Nodup) :
    l.Pairwise (fun x y => (g x == b) = true → (g y == b) = false) := by
  have h' : l.Pairwise (fun x y => g x ≠ g y) := List.pairwise_map.mp h
  refine h'.imp ?_
  intro x y hxy hb
  have hgx : g x = b := by simpa using hb
  refine beq_eq_false_iff_ne.mpr ?_
  intro hgy
  exact hxy (hgx ▸ hgy ▸ rfl)

/-! ### Sample records, in the shape of the seed data of the service -/

/-- A seed-style customer record. -/
def custAcme : Customer :=
  { id := "1", name := some "Acme Corporation", email := some "contact@acme.com"
    status := "active", healthScore := 92, tier := "enterprise"
    createdAt := "2024-01-15", updatedAt := "2024-01-15" }

/-- A second seed-style customer record. -/
def custGlobal : Customer :=
  { id := "2", name := some "Global Industries", email := some "info@global.com"
    status := "active", healthScore := 78, tier := "growth"
    createdAt := "2024-01-20", updatedAt := "2024-01-20" }

/-- A deal that is still open (`status: 'active'`, not won and not lost). -/
def dealActive : Deal :=
  { id := "d1", customerId := some "1", title := some "Enterprise Software License"
    value := 50000, stage := some "proposal", status := "active"
    createdAt := "2024-01-15", updatedAt := "2024-01-15" }

/-- A won deal of customer `"1"` worth `100000`. -/
def dealWonA : Deal :=
  { id := "d2", customerId := some "1", value := 100000
    stage := some "closed-won", status := "won"
    createdAt := "2024-01-15", updatedAt := "2024-02-15" }

/-- A won deal of customer `"2"` worth `50000`. -/
def dealWonB : Deal :=
  { id := "d3", customerId := some "2", value := 50000
    stage := some "closed-won", status := "won"
    createdAt := "2024-01-20", updatedAt := "2024-02-20" }

/-- A lost deal of customer `"2"`. -/
def dealLost : Deal :=
  { id := "d4", customerId := some "2", value := 75000
    stage := some "closed-lost", status := "lost"
    createdAt := "2024-01-20", updatedAt := "2024-02-25" }

/-- A seed-style contact record. -/
def contactJohn : Contact :=
  { id := "1", customerId := some "1", firstName := some "John"
    lastName := some "Smith", status := "active"
    createdAt := "2024-01-15", updatedAt := "2024-01-15" }

/-! ### C2 — average health score -/

/-- C2, counterexample: on an empty customer list `getDashboardStats` computes
`Math.round(0 / 0)`, i.e. `NaN` (`none`), not the `0` the claim requires. -/
theorem avgHealthScore_nan_on_empty :
    (getDashboardStats ⟨[], [], [], []⟩).avgHealthScore = none ∧
    (getDashboardStats ⟨[], [], [], []⟩).avgHealthScore ≠ some 0 := by
  constructor <;> simp [getDashboardStats, jsDiv]

/-- C2 (amended): `avgHealthScore` equals the rounded mean of all customers'
`healthScore` whenever the customer list is nonempty; on an empty customer
list the division `0 / 0` makes it `NaN` (`none`), not `0`. -/
theorem avgHealthScore_amended (st : CRMState) :
    (st.customers ≠ [] →
      (getDashboardStats st).avgHealthScore =
        some (jsRound
          (((st.customers.map Customer.healthScore).sum : ℚ) /
            (st.customers.length : ℚ)))) ∧
    (st.customers = [] → (getDashboardStats st).avgHealthScore = none) := by
  constructor
  · intro h
    have hlen : (st.customers.length : ℚ) ≠ 0 := by
      have := List.length_pos.mpr h
      positivity
    have hz : ∀ (l : List Customer) (i : Int),
        l.foldl (fun s c => s + jsOrInt c.healthScore 0) i =
          l.foldl (fun s c => s + c.healthScore) i := by
      intro l
      induction l with
      | nil => intro i; rfl
      | cons x xs ih => intro i; simp only [List.foldl_cons, jsOrInt_zero, ih]
    have hsum : st.customers.foldl (fun s c => s + jsOrInt c.healthScore 0) 0 =
        (st.customers.map Customer.healthScore).sum := by
      rw [hz, foldl_add_eq_sum Customer.healthScore, zero_add]
    simp [getDashboardStats, jsDiv, hlen, hsum]
  · intro h
    simp [getDashboardStats, jsDiv, h]

/-- C2, witness: on a store with the two sample customers the amended theorem
yields `round((92 + 78) / 2) = 85`. -/
theorem avgHealthScore_amended_witness :
    (getDashboardStats ⟨[custAcme, custGlobal], [], [], []⟩).avgHealthScore =
      some 85 := by
  have h := (avgHealthScore_amended ⟨[custAcme, custGlobal], [], [], []⟩).1
    (by simp)
  rw [h]
  norm_num [custAcme, custGlobal, jsRound, Int.floor_eq_iff]

/-! ### C1 — conversion rate -/

/-- C1, counterexample: on a store containing one deal that is neither won
nor lost the denominator `wonDeals + lostDeals` is `0`, yet the guard in the
source checks `totalDeals > 0`, so `getDashboardStats` computes
`(0 / 0) * 100 = NaN` (`none`) — not the `0` the claim requires. -/
theorem conversionRate_nan_on_open_deals :
    (getDashboardStats ⟨[], [], [dealActive], []⟩).wonDeals +
      (getDashboardStats ⟨[], [], [dealActive], []⟩).lostDeals = 0 ∧
    (getDashboardStats ⟨[], [], [dealActive], []⟩).conversionRate = none ∧
    (getDashboardStats ⟨[], [], [dealActive], []⟩).conversionRate ≠ some 0 := by
  refine ⟨?_, ?_, ?_⟩ <;> simp [getDashboardStats, dealActive, jsDiv]

/-- C1 (amended): `conversionRate` is
`wonDeals / (wonDeals + lostDeals) * 100` whenever at least one deal is won
or lost, and it is `0` when the store holds no deals at all; but when deals
exist and none of them is won or lost the denominator is `0` and the result
is `NaN` (`none`), because the divide-by-zero guard tests `totalDeals`
rather than the denominator. -/
theorem conversionRate_amended (st : CRMState) :
    (st.deals = [] → (getDashboardStats st).conversionRate = some 0) ∧
    (0 < (getDashboardStats st).wonDeals + (getDashboardStats st).lostDeals →
      (getDashboardStats st).conversionRate =
        some ((((getDashboardStats st).wonDeals : ℚ) /
          (((getDashboardStats st).wonDeals : ℚ) +
            ((getDashboardStats st).lostDeals : ℚ))) * 100)) ∧
    (st.deals ≠ [] →
      (getDashboardStats st).wonDeals + (getDashboardStats st).lostDeals = 0 →
      (getDashboardStats st).conversionRate = none) := by
  have hw : (getDashboardStats st).wonDeals =
      (st.deals.filter (fun dl => dl.status == "won")).length := rfl
  have hl : (getDashboardStats st).lostDeals =
      (st.deals.filter (fun dl => dl.status == "lost")).length := rfl
  refine ⟨?_, ?_, ?_⟩
  · intro h
    simp [getDashboardStats, h]
  · intro h
    rw [hw, hl] at h
    have hpos : 0 < st.deals.length := by
      rcases (by omega :
          0 < (st.deals.filter (fun dl => dl.status == "won")).length ∨
          0 < (st.deals.filter (fun dl => dl.status == "lost")).length) with h1 | h1
      · exact lt_of_lt_of_le h1 (List.length_filter_le _ _)
      · exact lt_of_lt_of_le h1 (List.length_filter_le _ _)
    have hden :
        (((st.deals.filter (fun dl => dl.status == "won")).length : ℚ) +
          ((st.deals.filter (fun dl => dl.status == "lost")).length : ℚ)) ≠ 0 := by
      have : (0 : ℚ) <
          ((st.deals.filter (fun dl => dl.status == "won")).length : ℚ) +
            ((st.deals.filter (fun dl => dl.status == "lost")).length : ℚ) := by
        exact_mod_cast h
      linarith
    rw [hw, hl]
    simp [getDashboardStats, jsDiv, hpos, hden]
  · intro hne h0
    rw [hw, hl] at h0
    have h1 : (st.deals.filter (fun dl => dl.status == "won")).length = 0 := by omega
    have h2 : (st.deals.filter (fun dl => dl.status == "lost")).length = 0 := by omega
    have hpos : 0 < st.deals.length := List.length_pos.mpr hne
    simp [getDashboardStats, jsDiv, hpos, h1, h2]

/-- C1, witness: on a store with one won and one lost deal the amended
theorem yields a conversion rate of `1 / (1 + 1) * 100 = 50`. -/
theorem conversionRate_amended_witness :
    (getDashboardStats ⟨[], [], [dealWonA, dealLost], []⟩).conversionRate =
      some 50 := by
  have h := (conversionRate_amended ⟨[], [], [dealWonA, dealLost], []⟩).2.1
    (by simp [getDashboardStats, dealWonA, dealLost])
  have hwon : (getDashboardStats ⟨[], [], [dealWonA, dealLost], []⟩).wonDeals = 1 := by
    decide
  have hlost : (getDashboardStats ⟨[], [], [dealWonA, dealLost], []⟩).lostDeals = 1 := by
    decide
  rw [hwon, hlost] at h
  rw [h]
  norm_num

/-! ### C3 — NotFound failures with fixed messages, atomic -/

/-- A sample module state with seed-style records in every store. -/
def sampleState : CRMState :=
  ⟨[custAcme, custGlobal], [contactJohn], [dealActive, dealWonA],
   [{ id := "a1", type := "deal_won", timestamp := "2024-02-28T17:00:00Z" }]⟩

/-- C3: for an `id` absent from the corresponding store alone — the other
stores may well contain a record with that id, since the seed id namespaces
overlap — update and delete for that entity type throw their fixed message
(`'Customer not found'`, `'Contact not found'`, `'Deal not found'`) and
leave the entire module state, all four stores, unchanged. -/
theorem notFound_error_atomic (st : CRMState) (id today : String)
    (cd : CustomerData) (kd : ContactData) (dd : DealData) :
    ((∀ c ∈ st.customers, c.id ≠ id) →
      updateCustomerS id cd today st = (Except.error "Customer not found", st) ∧
      deleteCustomerS id st = (Except.error "Customer not found", st)) ∧
    ((∀ c ∈ st.contacts, c.id ≠ id) →
      updateContactS id kd today st = (Except.error "Contact not found", st) ∧
      deleteContactS id st = (Except.error "Contact not found", st)) ∧
    ((∀ dl ∈ st.deals, dl.id ≠ id) →
      updateDealS id dd today st = (Except.error "Deal not found", st) ∧
      deleteDealS id st = (Except.error "Deal not found", st)) := by
  refine ⟨?_, ?_, ?_⟩
  · intro hc
    have hc' : ∀ c ∈ st.customers, (c.id == id) = false :=
      fun c h => beq_eq_false_iff_ne.mpr (hc c h)
    have h1 := updateFirst_eq_none_of_forall (fun c : Customer => c.id == id)
      (fun c => mergeCustomer c cd today) st.customers hc'
    have h2 := removeFirst_eq_none_of_forall (fun c : Customer => c.id == id)
      st.customers hc'
    exact ⟨by simp [updateCustomerS, updateCustomerL, h1],
      by simp [deleteCustomerS, deleteCustomerL, h2]⟩
  · intro hk
    have hk' : ∀ c ∈ st.contacts, (c.id == id) = false :=
      fun c h => beq_eq_false_iff_ne.mpr (hk c h)
    have h3 := updateFirst_eq_none_of_forall (fun c : Contact => c.id == id)
      (fun c => mergeContact c kd today) st.contacts hk'
    have h4 := removeFirst_eq_none_of_forall (fun c : Contact => c.id == id)
      st.contacts hk'
    exact ⟨by simp [updateContactS, updateContactL, h3],
      by simp [deleteContactS, deleteContactL, h4]⟩
  · intro hd
    have hd' : ∀ dl ∈ st.deals, (dl.id == id) = false :=
      fun dl h => beq_eq_false_iff_ne.mpr (hd dl h)
    have h5 := updateFirst_eq_none_of_forall (fun dl : Deal => dl.id == id)
      (fun dl => mergeDeal dl dd today) st.deals hd'
    have h6 := removeFirst_eq_none_of_forall (fun dl : Deal => dl.id == id)
      st.deals hd'
    exact ⟨by simp [updateDealS, updateDealL, h5],
      by simp [deleteDealS, deleteDealL, h6]⟩

/-- C3, witness: on the sample state the six operations at the everywhere
absent id `"999"` all fail with their fixed message and leave the state
untouched; moreover the customer and contact operations fail the same way at
id `"d1"`, an id that is present in the deals store but absent from the
customers and contacts stores — absence from the corresponding store alone
decides the outcome. -/
theorem notFound_error_atomic_witness :
    (updateCustomerS "999" {} "2024-03-01" sampleState =
      (Except.error "Customer not found", sampleState) ∧
     deleteCustomerS "999" sampleState =
      (Except.error "Customer not found", sampleState)) ∧
    (updateContactS "999" {} "2024-03-01" sampleState =
      (Except.error "Contact not found", sampleState) ∧
     deleteContactS "999" sampleState =
      (Except.error "Contact not found", sampleState)) ∧
    (updateDealS "999" {} "2024-03-01" sampleState =
      (Except.error "Deal not found", sampleState) ∧
     deleteDealS "999" sampleState =
      (Except.error "Deal not found", sampleState)) ∧
    ("d1" ∈ sampleState.deals.map Deal.id ∧
     updateCustomerS "d1" {} "2024-03-01" sampleState =
      (Except.error "Customer not found", sampleState) ∧
     deleteCustomerS "d1" sampleState =
      (Except.error "Customer not found", sampleState) ∧
     updateContactS "d1" {} "2024-03-01" sampleState =
      (Except.error "Contact not found", sampleState) ∧
     deleteContactS "d1" sampleState =
      (Except.error "Contact not found", sampleState)) :=
  ⟨(notFound_error_atomic sampleState "999" "2024-03-01" {} {} {}).1 (by decide),
   (notFound_error_atomic sampleState "999" "2024-03-01" {} {} {}).2.1 (by decide),
   (notFound_error_atomic sampleState "999" "2024-03-01" {} {} {}).2.2 (by decide),
   by decide,
   ((notFound_error_atomic sampleState "d1" "2024-03-01" {} {} {}).1 (by decide)).1,
   ((notFound_error_atomic sampleState "d1" "2024-03-01" {} {} {}).1 (by decide)).2,
   ((notFound_error_atomic sampleState "d1" "2024-03-01" {} {} {}).2.1 (by decide)).1,
   ((notFound_error_atomic sampleState "d1" "2024-03-01" {} {} {}).2.1 (by decide)).2⟩

/-! ### C4 — id uniqueness and immutability -/

/-- C4, counterexample: in `{ id: uuidv4(), ...customerData, ... }` the
spread comes after the generated id, so a caller-supplied `id` key overrides
the fresh uuid: creating with `{ id: '1' }` over a store already holding id
`'1'` introduces a duplicate id, and `updateCustomer('1', { id: '2' })`
changes the id of the record it modifies. -/
theorem id_invariant_claim_cex :
    ([custAcme].map Customer.id).Nodup ∧
    (createCustomerL "uuid-fresh" "2024-03-01" { id := some "1" }
      [custAcme]).2.map Customer.id = ["1", "1"] ∧
    ¬ ((createCustomerL "uuid-fresh" "2024-03-01" { id := some "1" }
      [custAcme]).2.map Customer.id).Nodup ∧
    (updateCustomerL "1" { id := some "2" } "2024-03-01"
      [custAcme]).2.map Customer.id = ["2"] := by
  refine ⟨by decide, by decide, by decide, by decide⟩

/-- C4 (amended): provided the partial-field object carries no `id` key and
the generated uuid is not already present, every create preserves uniqueness
of ids and every update leaves the stored ids — in particular the id of the
record it modifies — exactly as they were, for all three entity types. -/
theorem id_invariant_amended (st : CRMState) (fresh today id : String)
    (cd : CustomerData) (kd : ContactData) (dd : DealData)
    (hcd : cd.id = none) (hkd : kd.id = none) (hdd : dd.id = none)
    (hcf : fresh ∉ st.customers.map Customer.id)
    (hkf : fresh ∉ st.contacts.map Contact.id)
    (hdf : fresh ∉ st.deals.map Deal.id)
    (hcn : (st.customers.map Customer.id).Nodup)
    (hkn : (st.contacts.map Contact.id).Nodup)
    (hdn : (st.deals.map Deal.id).Nodup) :
    ((createCustomerL fresh today cd st.customers).2.map Customer.id).Nodup ∧
    ((createContactL fresh today kd st.contacts).2.map Contact.id).Nodup ∧
    ((createDealL fresh today dd st.deals).2.map Deal.id).Nodup ∧
    (updateCustomerL id cd today st.customers).2.map Customer.id =
      st.customers.map Customer.id ∧
    (updateContactL id kd today st.contacts).2.map Contact.id =
      st.contacts.map Contact.id ∧
    (updateDealL id dd today st.deals).2.map Deal.id =
      st.deals.map Deal.id := by
  refine ⟨?_, ?_, ?_, ?_, ?_, ?_⟩
  · simp [createCustomerL, newCustomer, hcd, List.nodup_append, hcn,
      List.disjoint_singleton, hcf]
  · simp [createContactL, newContact, hkd, List.nodup_append, hkn,
      List.disjoint_singleton, hkf]
  · simp [createDealL, newDeal, hdd, List.nodup_append, hdn,
      List.disjoint_singleton, hdf]
  · have hf : ∀ c, (mergeCustomer c cd today).id = c.id := by
      intro c; simp [mergeCustomer, hcd]
    cases hu : updateFirst (fun c => c.id == id)
        (fun c => mergeCustomer c cd today) st.customers with
    | none => simp [updateCustomerL, hu]
    | some r =>
      simpa [updateCustomerL, hu] using
        updateFirst_map_proj _ _ Customer.id hf st.customers r hu
  · have hf : ∀ c, (mergeContact c kd today).id = c.id := by
      intro c; simp [mergeContact, hkd]
    cases hu : updateFirst (fun c => c.id == id)
        (fun c => mergeContact c kd today) st.contacts with
    | none => simp [updateContactL, hu]
    | some r =>
      simpa [updateContactL, hu] using
        updateFirst_map_proj _ _ Contact.id hf st.contacts r hu
  · have hf : ∀ dl, (mergeDeal dl dd today).id = dl.id := by
      intro dl; simp [mergeDeal, hdd]
    cases hu : updateFirst (fun dl => dl.id == id)
        (fun dl => mergeDeal dl dd today) st.deals with
    | none => simp [updateDealL, hu]
    | some r =>
      simpa [updateDealL, hu] using
        updateFirst_map_proj _ _ Deal.id hf st.deals r hu

/-- C4, witness: on the sample state, creating a customer from an id-less
partial object with a fresh uuid keeps the id list duplicate-free, and
updating customer `"1"` leaves the stored ids untouched. -/
theorem id_invariant_amended_witness :
    ((createCustomerL "uuid-9" "2024-03-01" {} sampleState.customers).2.map
      Customer.id).Nodup ∧
    (updateCustomerL "1" {} "2024-03-01" sampleState.customers).2.map
      Customer.id = sampleState.customers.map Customer.id :=
  ⟨(id_invariant_amended sampleState "uuid-9" "2024-03-01" "1" {} {} {}
      rfl rfl rfl (by decide) (by decide) (by decide)
      (by decide) (by decide) (by decide)).1,
   (id_invariant_amended sampleState "uuid-9" "2024-03-01" "1" {} {} {}
      rfl rfl rfl (by decide) (by decide) (by decide)
      (by decide) (by decide) (by decide)).2.2.2.1⟩

/-! ### C5 — create followed by get -/

/-- C5, counterexample: with a partial object carrying `id: '1'` over a
store already holding id `'1'`, the created record's id is `'1'` — an id
present before the call, not a new unique one — and `getCustomer('1')`
afterwards returns the old record, not the created one (their names differ). -/
theorem create_get_claim_cex :
    (createCustomerL "uuid-fresh" "2024-03-01"
      { id := some "1", name := some "New Co" } [custAcme]).1.id = "1" ∧
    "1" ∈ [custAcme].map Customer.id ∧
    getCustomerL "1"
      (createCustomerL "uuid-fresh" "2024-03-01"
        { id := some "1", name := some "New Co" } [custAcme]).2 = some custAcme ∧
    custAcme ≠ (createCustomerL "uuid-fresh" "2024-03-01"
      { id := some "1", name := some "New Co" } [custAcme]).1 := by
  refine ⟨by decide, by decide, by decide, by decide⟩

/-- C5 (amended): for each entity type, provided the creation input carries
no `id` key and the generated uuid is not already present in the store,
`create` assigns the fresh id, sets `createdAt = updatedAt = today`, appends
the full record to the end of the store, returns that record, and an
immediately following `get` with that id returns exactly the created record. -/
theorem create_get_roundtrip_amended (st : CRMState) (fresh today : String)
    (cd : CustomerData) (kd : ContactData) (dd : DealData)
    (hcd : cd.id = none) (hkd : kd.id = none) (hdd : dd.id = none)
    (hcf : fresh ∉ st.customers.map Customer.id)
    (hkf : fresh ∉ st.contacts.map Contact.id)
    (hdf : fresh ∉ st.deals.map Deal.id) :
    ((createCustomerL fresh today cd st.customers).1.id = fresh ∧
     (createCustomerL fresh today cd st.customers).1.createdAt = today ∧
     (createCustomerL fresh today cd st.customers).1.updatedAt = today ∧
     (createCustomerL fresh today cd st.customers).2 =
       st.customers ++ [(createCustomerL fresh today cd st.customers).1] ∧
     getCustomerL fresh (createCustomerL fresh today cd st.customers).2 =
       some (createCustomerL fresh today cd st.customers).1) ∧
    ((createContactL fresh today kd st.contacts).1.id = fresh ∧
     (createContactL fresh today kd st.contacts).1.createdAt = today ∧
     (createContactL fresh today kd st.contacts).1.updatedAt = today ∧
     (createContactL fresh today kd st.contacts).2 =
       st.contacts ++ [(createContactL fresh today kd st.contacts).1] ∧
     getContactL fresh (createContactL fresh today kd st.contacts).2 =
       some (createContactL fresh today kd st.contacts).1) ∧
    ((createDealL fresh today dd st.deals).1.id = fresh ∧
     (createDealL fresh today dd st.deals).1.createdAt = today ∧
     (createDealL fresh today dd st.deals).1.updatedAt = today ∧
     (createDealL fresh today dd st.deals).2 =
       st.deals ++ [(createDealL fresh today dd st.deals).1] ∧
     getDealL fresh (createDealL fresh today dd st.deals).2 =
       some (createDealL fresh today dd st.deals).1) := by
  have hcl : ∀ y ∈ st.customers, ((fun c : Customer => c.id == fresh) y) = false := by
    intro y hy
    refine beq_eq_false_iff_ne.mpr ?_
    intro h
    exact hcf (List.mem_map.mpr ⟨y, hy, h⟩)
  have hkl : ∀ y ∈ st.contacts, ((fun c : Contact => c.id == fresh) y) = false := by
    intro y hy
    refine beq_eq_false_iff_ne.mpr ?_
    intro h
    exact hkf (List.mem_map.mpr ⟨y, hy, h⟩)
  have hdl : ∀ y ∈ st.deals, ((fun dl : Deal => dl.id == fresh) y) = false := by
    intro y hy
    refine beq_eq_false_iff_ne.mpr ?_
    intro h
    exact hdf (List.mem_map.mpr ⟨y, hy, h⟩)
  refine ⟨⟨?_, rfl, rfl, rfl, ?_⟩, ⟨?_, rfl, rfl, rfl, ?_⟩, ⟨?_, rfl, rfl, rfl, ?_⟩⟩
  · simp [createCustomerL, newCustomer, hcd]
  · exact find?_append_last _ st.customers _ hcl (by simp [newCustomer, hcd])
  · simp [createContactL, newContact, hkd]
  · exact find?_append_last _ st.contacts _ hkl (by simp [newContact, hkd])
  · simp [createDealL, newDeal, hdd]
  · exact find?_append_last _ st.deals _ hdl (by simp [newDeal, hdd])

/-- C5, witness: creating a customer on the sample state from an id-less
input with the fresh uuid `"uuid-9"` and then getting `"uuid-9"` returns
exactly the created record, with `createdAt = updatedAt = today`. -/
theorem create_get_roundtrip_amended_witness :
    (createCustomerL "uuid-9" "2024-03-01"
      { name := some "Test Co" } sampleState.customers).1.id = "uuid-9" ∧
    (createCustomerL "uuid-9" "2024-03-01"
      { name := some "Test Co" } sampleState.customers).1.createdAt = "2024-03-01" ∧
    (createCustomerL "uuid-9" "2024-03-01"
      { name := some "Test Co" } sampleState.customers).1.updatedAt = "2024-03-01" ∧
    (createCustomerL "uuid-9" "2024-03-01"
      { name := some "Test Co" } sampleState.customers).2 =
      sampleState.customers ++
        [(createCustomerL "uuid-9" "2024-03-01"
          { name := some "Test Co" } sampleState.customers).1] ∧
    getCustomerL "uuid-9"
      (createCustomerL "uuid-9" "2024-03-01"
        { name := some "Test Co" } sampleState.customers).2 =
      some (createCustomerL "uuid-9" "2024-03-01"
        { name := some "Test Co" } sampleState.customers).1 :=
  (create_get_roundtrip_amended sampleState "uuid-9" "2024-03-01"
    { name := some "Test Co" } {} {} rfl rfl rfl
    (by decide) (by decide) (by decide)).1

/-! ### C7 — delete removes exactly one record -/

/-- C7: in a store with unique ids, deleting a present id returns
`{ success: true }`, shrinks that store by exactly one record, and a
subsequent `get` of the same id returns absent — for all three entity types. -/
theorem delete_removes_exactly_one (st : CRMState) (id : String) :
    ((st.customers.map Customer.id).Nodup → id ∈ st.customers.map Customer.id →
      (deleteCustomerL id st.customers).1 = Except.ok ⟨true⟩ ∧
      (deleteCustomerL id st.customers).2.length + 1 = st.customers.length ∧
      getCustomerL id (deleteCustomerL id st.customers).2 = none) ∧
    ((st.contacts.map Contact.id).Nodup → id ∈ st.contacts.map Contact.id →
      (deleteContactL id st.contacts).1 = Except.ok ⟨true⟩ ∧
      (deleteContactL id st.contacts).2.length + 1 = st.contacts.length ∧
      getContactL id (deleteContactL id st.contacts).2 = none) ∧
    ((st.deals.map Deal.id).Nodup → id ∈ st.deals.map Deal.id →
      (deleteDealL id st.deals).1 = Except.ok ⟨true⟩ ∧
      (deleteDealL id st.deals).2.length + 1 = st.deals.length ∧
      getDealL id (deleteDealL id st.deals).2 = none) := by
  refine ⟨?_, ?_, ?_⟩
  · intro hn hp
    have hex : ∃ x ∈ st.customers, ((fun c : Customer => c.id == id) x) = true := by
      obtain ⟨c, hc, hid⟩ := List.mem_map.mp hp
      exact ⟨c, hc, by simp [hid]⟩
    have hpw := pairwise_key_of_nodup_map Customer.id st.customers id hn
    obtain ⟨l', h1, h2, h3⟩ := removeFirst_spec _ st.customers hex
    exact ⟨by simp [deleteCustomerL, h1], by simp [deleteCustomerL, h1, h2],
      by simp [deleteCustomerL, getCustomerL, h1, h3 hpw]⟩
  · intro hn hp
    have hex : ∃ x ∈ st.contacts, ((fun c : Contact => c.id == id) x) = true := by
      obtain ⟨c, hc, hid⟩ := List.mem_map.mp hp
      exact ⟨c, hc, by simp [hid]⟩
    have hpw := pairwise_key_of_nodup_map Contact.id st.contacts id hn
    obtain ⟨l', h1, h2, h3⟩ := removeFirst_spec _ st.contacts hex
    exact ⟨by simp [deleteContactL, h1], by simp [deleteContactL, h1, h2],
      by simp [deleteContactL, getContactL, h1, h3 hpw]⟩
  · intro hn hp
    have hex : ∃ x ∈ st.deals, ((fun dl : Deal => dl.id == id) x) = true := by
      obtain ⟨dl, hdl, hid⟩ := List.mem_map.mp hp
      exact ⟨dl, hdl, by simp [hid]⟩
    have hpw := pairwise_key_of_nodup_map Deal.id st.deals id hn
    obtain ⟨l', h1, h2, h3⟩ := removeFirst_spec _ st.deals hex
    exact ⟨by simp [deleteDealL, h1], by simp [deleteDealL, h1, h2],
      by simp [deleteDealL, getDealL, h1, h3 hpw]⟩

/-- C7, witness: deleting customer `"1"` from the sample state succeeds,
shrinks the customer store from 2 records to 1, and `getCustomer('1')`
afterwards returns absent. -/
theorem delete_removes_exactly_one_witness :
    (deleteCustomerL "1" sampleState.customers).1 = Except.ok ⟨true⟩ ∧
    (deleteCustomerL "1" sampleState.customers).2.length + 1 =
      sampleState.customers.length ∧
    getCustomerL "1" (deleteCustomerL "1" sampleState.customers).2 = none :=
  (delete_removes_exactly_one sampleState "1").1 (by decide) (by decide)

/-! ### C8 — updateDeal is a shallow per-field merge with a frame -/

/-- C8: when `id` is present in a deal store with unique ids, `updateDeal`
returns the shallow merge of the supplied fields over the existing record:
each supplied top-level field is replaced, each unsupplied field keeps its
previous value, `updatedAt` is refreshed to today's date whether supplied or
not, and every deal whose id differs is carried over unchanged. -/
theorem updateDeal_shallow_merge_frame (st : List Deal) (id today : String)
    (d : DealData) (old : Deal)
    (hn : (st.map Deal.id).Nodup)
    (hf : st.find? (fun dl => dl.id == id) = some old) :
    (updateDealL id d today st).1 = Except.ok (mergeDeal old d today) ∧
    (updateDealL id d today st).2 =
      st.map (fun dl => if dl.id == id then mergeDeal dl d today else dl) ∧
    (mergeDeal old d today).updatedAt = today ∧
    (d.value = none → (mergeDeal old d today).value = old.value) ∧
    (∀ v, d.value = some v → (mergeDeal old d today).value = v) ∧
    (d.title = none → (mergeDeal old d today).title = old.title) ∧
    (∀ t, d.title = some t → (mergeDeal old d today).title = some t) ∧
    (d.stage = none → (mergeDeal old d today).stage = old.stage) ∧
    (∀ s, d.stage = some s → (mergeDeal old d today).stage = some s) ∧
    (d.status = none → (mergeDeal old d today).status = old.status) ∧
    (∀ s, d.status = some s → (mergeDeal old d today).status = s) ∧
    (∀ dl ∈ st, dl.id ≠ id → dl ∈ (updateDealL id d today st).2) := by
  have hpw := pairwise_key_of_nodup_map Deal.id st id hn
  have h := updateFirst_eq_map_of_unique (fun dl => dl.id == id)
    (fun dl => mergeDeal dl d today) st old hf hpw
  refine ⟨by simp [updateDealL, h], by simp [updateDealL, h], rfl,
    ?_, ?_, ?_, ?_, ?_, ?_, ?_, ?_, ?_⟩
  · intro h'; simp [mergeDeal, h']
  · intro v h'; simp [mergeDeal, h']
  · intro h'; simp [mergeDeal, h']
  · intro t h'; simp [mergeDeal, h']
  · intro h'; simp [mergeDeal, h']
  · intro s h'; simp [mergeDeal, h']
  · intro h'; simp [mergeDeal, h']
  · intro s h'; simp [mergeDeal, h']
  · intro dl hdl hne
    have hbeq : (dl.id == id) = false := beq_eq_false_iff_ne.mpr hne
    simp only [updateDealL, h]
    exact List.mem_map.mpr ⟨dl, hdl, by simp [hbeq]⟩

/-- C8, witness: updating deal `"d1"` of the sample state with
`{ stage: 'negotiation', status: 'won' }` succeeds; the merged record keeps
the previous `value` and `title` and carries the refreshed `updatedAt`. -/
theorem updateDeal_shallow_merge_frame_witness :
    (updateDealL "d1" { stage := some "negotiation", status := some "won" }
      "2024-03-05" sampleState.deals).1 =
      Except.ok (mergeDeal dealActive
        { stage := some "negotiation", status := some "won" } "2024-03-05") ∧
    (mergeDeal dealActive
      { stage := some "negotiation", status := some "won" } "2024-03-05").value =
      dealActive.value ∧
    (mergeDeal dealActive
      { stage := some "negotiation", status := some "won" } "2024-03-05").title =
      dealActive.title ∧
    (mergeDeal dealActive
      { stage := some "negotiation", status := some "won" } "2024-03-05").updatedAt =
      "2024-03-05" :=
  ⟨(updateDeal_shallow_merge_frame sampleState.deals "d1" "2024-03-05"
      { stage := some "negotiation", status := some "won" } dealActive
      (by decide) (by decide)).1,
   (updateDeal_shallow_merge_frame sampleState.deals "d1" "2024-03-05"
      { stage := some "negotiation", status := some "won" } dealActive
      (by decide) (by decide)).2.2.2.1 rfl,
   (updateDeal_shallow_merge_frame sampleState.deals "d1" "2024-03-05"
      { stage := some "negotiation", status := some "won" } dealActive
      (by decide) (by decide)).2.2.2.2.2.1 rfl,
   (updateDeal_shallow_merge_frame sampleState.deals "d1" "2024-03-05"
      { stage := some "negotiation", status := some "won" } dealActive
      (by decide) (by decide)).2.2.1⟩

/-! ### C9 — deleting a customer does not cascade -/

/-- C9: deleting a present customer id succeeds and leaves the contacts,
deals and activities stores entirely unchanged — including records whose
`customerId` references the deleted customer. -/
theorem deleteCustomer_no_cascade (st : CRMState) (id : String)
    (hp : id ∈ st.customers.map Customer.id) :
    (deleteCustomerS id st).1 = Except.ok ⟨true⟩ ∧
    (deleteCustomerS id st).2.contacts = st.contacts ∧
    (deleteCustomerS id st).2.deals = st.deals ∧
    (deleteCustomerS id st).2.activities = st.activities := by
  have hex : ∃ x ∈ st.customers, ((fun c : Customer => c.id == id) x) = true := by
    obtain ⟨c, hc, hid⟩ := List.mem_map.mp hp
    exact ⟨c, hc, by simp [hid]⟩
  obtain ⟨l', h1, h2, h3⟩ := removeFirst_spec _ st.customers hex
  exact ⟨by simp [deleteCustomerS, deleteCustomerL, h1], rfl, rfl, rfl⟩

/-- C9, witness: deleting customer `"1"` from the sample state succeeds and
leaves the contact of customer `"1"`, both deals and the activity in place. -/
theorem deleteCustomer_no_cascade_witness :
    (deleteCustomerS "1" sampleState).1 = Except.ok ⟨true⟩ ∧
    (deleteCustomerS "1" sampleState).2.contacts = sampleState.contacts ∧
    (deleteCustomerS "1" sampleState).2.deals = sampleState.deals ∧
    (deleteCustomerS "1" sampleState).2.activities = sampleState.activities :=
  deleteCustomer_no_cascade sampleState "1" (by decide)

/-! ### C10 — createCustomer server-side defaults override the input -/

/-- C10: for every creation input — including inputs that themselves carry
`status`, `healthScore`, `tier`, `createdAt` or `updatedAt` keys — the record
returned and stored by `createCustomer` has `status 'active'`,
`healthScore 80`, `tier 'startup'` and `createdAt = updatedAt = today`,
because these five fields are written after the input spread. -/
theorem createCustomer_defaults_override (fresh today : String)
    (d : CustomerData) (st : List Customer) :
    (createCustomerL fresh today d st).1.status = "active" ∧
    (createCustomerL fresh today d st).1.healthScore = 80 ∧
    (createCustomerL fresh today d st).1.tier = "startup" ∧
    (createCustomerL fresh today d st).1.createdAt = today ∧
    (createCustomerL fresh today d st).1.updatedAt = today ∧
    (createCustomerL fresh today d st).2 =
      st ++ [(createCustomerL fresh today d st).1] :=
  ⟨rfl, rfl, rfl, rfl, rfl, rfl⟩

/-! ### C6 — topCustomers -/

/-- C6: the `topCustomers` list of the dashboard has at most 5 entries, is
sorted in descending order of `dealValue`, and every entry is one of the
stored customers carrying `dealValue` equal to the sum of the values of that
customer's won deals, with no entry whose sum is `≤ 0`. -/
theorem topCustomers_spec (st : CRMState) :
    (getDashboardStats st).topCustomers.length ≤ 5 ∧
    (getDashboardStats st).topCustomers.Pairwise
      (fun a b => b.dealValue ≤ a.dealValue) ∧
    (∀ e ∈ (getDashboardStats st).topCustomers,
      0 < e.dealValue ∧ e.dealValue = wonDealSum st.deals e.customer.id ∧
      e.customer ∈ st.customers) := by
  have htc : (getDashboardStats st).topCustomers =
      (((st.customers.map (fun c =>
          ({ customer := c, dealValue :=
              (st.deals.filter
                (fun dl => dl.customerId == some c.id && dl.status == "won")).foldl
                (fun s dl => s + dl.value) 0 } : TopEntry))).filter
        (fun c => decide (0 < c.dealValue))).mergeSort
        (fun a b => decide (b.dealValue ≤ a.dealValue))).take 5 := rfl
  have htrans : ∀ a b c : TopEntry,
      (decide (b.dealValue ≤ a.dealValue)) = true →
      (decide (c.dealValue ≤ b.dealValue)) = true →
      (decide (c.dealValue ≤ a.dealValue)) = true := by
    intro a b c h1 h2
    simp only [decide_eq_true_eq] at h1 h2 ⊢
    omega
  have htotal : ∀ a b : TopEntry,
      ((decide (b.dealValue ≤ a.dealValue)) ||
        (decide (a.dealValue ≤ b.dealValue))) = true := by
    intro a b
    simp only [Bool.or_eq_true, decide_eq_true_eq]
    omega
  refine ⟨?_, ?_, ?_⟩
  · rw [htc]
    exact List.length_take_le 5 _
  · rw [htc]
    have hs := List.sorted_mergeSort htrans htotal
      ((st.customers.map (fun c =>
          ({ customer := c, dealValue :=
              (st.deals.filter
                (fun dl => dl.customerId == some c.id && dl.status == "won")).foldl
                (fun s dl => s + dl.value) 0 } : TopEntry))).filter
        (fun c => decide (0 < c.dealValue)))
    have hs' := hs.imp (fun h => decide_eq_true_eq.mp h)
    exact List.Pairwise.sublist (List.take_sublist 5 _) hs'
  · intro e he
    rw [htc] at he
    have he1 := (List.take_sublist 5 _).subset he
    have he2 := List.mem_mergeSort.mp he1
    obtain ⟨hemem, hpos⟩ := List.mem_filter.mp he2
    obtain ⟨c, hc, hce⟩ := List.mem_map.mp hemem
    subst hce
    refine ⟨by simpa using hpos, ?_, hc⟩
    show _ = wonDealSum st.deals c.id
    rw [wonDealSum]
    exact (foldl_add_eq_sum Deal.value _ 0).trans (zero_add _)

/-- The aggregation input of the spec's top-customers scenario: customers A
and B with won deals summing to `100000` and `50000` respectively. -/
def stTop : CRMState := ⟨[custAcme, custGlobal], [], [dealWonA, dealWonB], []⟩

/-- The `topCustomers` entry for `custAcme` in `stTop`. -/
def topA : TopEntry := ⟨custAcme, 100000⟩

/-- The `topCustomers` entry for `custGlobal` in `stTop`. -/
def topB : TopEntry := ⟨custGlobal, 50000⟩

/-- C6, witness: on the two-customer scenario the dashboard reports
`[A, B]` in that order with deal values `100000` and `50000`, and the
theorem's bound and per-entry facts hold at entry `A`. -/
theorem topCustomers_spec_witness :
    (getDashboardStats stTop).topCustomers = [topA, topB] ∧
    (getDashboardStats stTop).topCustomers.length ≤ 5 ∧
    (0 < topA.dealValue ∧ topA.dealValue = wonDealSum stTop.deals topA.customer.id ∧
      topA.customer ∈ stTop.customers) := by
  have h2 : ∀ (l : List TopEntry),
      l.Pairwise (fun a b => (decide (b.dealValue ≤ a.dealValue)) = true) →
      (l.mergeSort (fun a b => decide (b.dealValue ≤ a.dealValue))).take 5 =
        l.take 5 :=
    fun l hl => by rw [List.mergeSort_of_sorted hl]
  have htc : (getDashboardStats stTop).topCustomers = [topA, topB] := by
    simp only [getDashboardStats]
    refine (h2 _ ?_).trans ?_
    · decide
    · decide
  exact ⟨htc, (topCustomers_spec stTop).1,
    (topCustomers_spec stTop).2.2 topA (by rw [htc]; decide)⟩

end CRM
